import Mathlib

/-!
# A shallow embedding of `gitlab-lfs-get.py`

This file models the single-module command line tool `gitlab-lfs-get.py`:
a linear pipeline that loads credentials from the environment, fetches a
Git-LFS pointer file through the GitLab raw-file API, negotiates a signed
download URL through the LFS batch API, and streams the object to disk.

Python string primitives (`str.strip`, `str.split`, `str.startswith`,
`int(...)`, `base64.b64encode`, `urllib.parse.quote_plus`) are modelled by
structural recursion over `List Char` so that every definition evaluates by
`decide`/`rfl`.  Characters are identified with their code points; all
concrete inputs used below are ASCII, where this coincides with Python's
byte-level behaviour.

Python exceptions are modelled by the inductive type `PyErr`; the outcome of
each network call is an input of the model (`TransportOutcome`), covering a
response with a status code, a connection-level failure, and any other
exception raised by the HTTP library.
-/

deriving instance DecidableEq for Except

namespace GitlabLfsGet

/-- Whitespace as recognised by Python's `str.strip` / `str.split()`
(ASCII fragment). -/
def isSpace (c : Char) : Bool :=
  c = ' ' || c = '\t' || c = '\n' || c = '\r' || c = '\x0b' || c = '\x0c'

/-- `str.strip()` on the underlying character list. -/
def stripList (l : List Char) : List Char :=
  ((l.dropWhile isSpace).reverse.dropWhile isSpace).reverse

/-- Python `s.strip()`. -/
def pyStrip (s : String) : String := String.mk (stripList s.data)

/-- Python `s.split(sep)` for a one-character separator: splits at every
occurrence, keeping empty fragments. -/
def splitSep (sep : Char) : List Char → List (List Char)
  | [] => [[]]
  | c :: cs =>
    if c = sep then [] :: splitSep sep cs
    else
      match splitSep sep cs with
      | [] => [[c]]
      | t :: ts => (c :: t) :: ts

/-- Python `s.split(sep)` at the `String` level. -/
def pySplitSep (sep : Char) (s : String) : List String :=
  (splitSep sep s.data).map String.mk

/-- Helper for Python's separator-less `s.split()`: accumulates the current
token (reversed) and splits on whitespace runs, discarding empties. -/
def splitWsAux : List Char → List Char → List (List Char)
  | [], acc => if acc = [] then [] else [acc.reverse]
  | c :: cs, acc =>
    if isSpace c then
      if acc = [] then splitWsAux cs [] else acc.reverse :: splitWsAux cs []
    else splitWsAux cs (c :: acc)

/-- Python `s.split()` (no separator): whitespace runs, no empty tokens. -/
def pySplitWs (s : String) : List String :=
  (splitWsAux s.data []).map String.mk

/-- Python `s.startswith(pre)`. -/
def pyStartswith (s pre : String) : Bool :=
  pre.data.isPrefixOf s.data

/-- Decimal digit value of a character, if any. -/
def digitVal (c : Char) : Option Nat :=
  if 48 ≤ c.toNat ∧ c.toNat ≤ 57 then some (c.toNat - 48) else none

/-- Accumulating loop for `pyInt`; `none` accumulator means no digit seen. -/
def pyIntList : List Char → Option Nat → Option Nat
  | [], acc => acc
  | c :: cs, acc =>
    match digitVal c with
    | some d => pyIntList cs (some (acc.getD 0 * 10 + d))
    | none => none

/-- Python `int(s)` restricted to the nonnegative decimal literals this
program meets; surrounding whitespace is allowed, anything else is a
`ValueError` (`none`). -/
def pyInt (s : String) : Option Nat :=
  pyIntList (stripList s.data) none

/-- The base64 alphabet. -/
def b64chars : List Char :=
  "ABCDEFGHIJKLMNOPQRSTUVWXYZabcdefghijklmnopqrstuvwxyz0123456789+/".data

/-- `base64.b64encode` over a byte list. -/
def b64encodeBytes : List Nat → List Char
  | [] => []
  | [a] =>
    [b64chars.getD (a / 4) 'A', b64chars.getD (a % 4 * 16) 'A', '=', '=']
  | [a, b] =>
    [b64chars.getD (a / 4) 'A', b64chars.getD (a % 4 * 16 + b / 16) 'A',
     b64chars.getD (b % 16 * 4) 'A', '=']
  | a :: b :: c :: rest =>
    b64chars.getD (a / 4) 'A' :: b64chars.getD (a % 4 * 16 + b / 16) 'A' ::
    b64chars.getD (b % 16 * 4 + c / 64) 'A' :: b64chars.getD (c % 64) 'A' ::
    b64encodeBytes rest

/-- `b64encode(s.encode("UTF-8")).decode("ascii")` for ASCII `s` (characters
are their own code points). -/
def b64encode (s : String) : String :=
  String.mk (b64encodeBytes (s.data.map Char.toNat))

/-- Characters never quoted by `urllib.parse.quote_plus`: letters, digits and
`_.-~`. -/
def safeChar (c : Char) : Bool :=
  (65 ≤ c.toNat && c.toNat ≤ 90) || (97 ≤ c.toNat && c.toNat ≤ 122) ||
  (48 ≤ c.toNat && c.toNat ≤ 57) || c = '_' || c = '.' || c = '-' || c = '~'

/-- Upper-case hexadecimal digit. -/
def hexDigit (n : Nat) : Char :=
  if n < 10 then Char.ofNat (48 + n) else Char.ofNat (65 + n - 10)

/-- `%XX` percent escape of one byte. -/
def pctByte (n : Nat) : String :=
  String.mk ['%', hexDigit (n / 16), hexDigit (n % 16)]

/-- `urllib.parse.quote_plus` over the character list (ASCII model): safe
characters pass through, space becomes `+`, the rest is percent-escaped. -/
def quotePlusList : List Char → String
  | [] => ""
  | c :: cs =>
    (if safeChar c then String.mk [c]
     else if c = ' ' then "+"
     else pctByte c.toNat) ++ quotePlusList cs

/-- Python `urllib.parse.quote_plus(s)`. -/
def quote_plus (s : String) : String := quotePlusList s.data

/-! ## Python exceptions and the HTTP transport -/

/-- The Python exceptions the program can raise or propagate.  The
`RuntimeError`s raised by the `request` wrapper keep the data their f-strings
interpolate (for the HTTP errors, the status code and the library-formatted
exception text `str(ex)`); the remaining constructors model exceptions that
escape unwrapped (`IndexError`, `UnboundLocalError`, `KeyError`,
`ValueError`, and exceptions of the HTTP library propagating out of
`dl_target_file`). -/
inductive PyErr where
  | connectionFailed (tyName : String)
  | clientError (status : Nat) (msg : String)
  | serverError (status : Nat) (msg : String)
  | wrapped (msg : String)
  | unsupportedMethod (m : String)
  | indexError
  | unboundLocal (name : String)
  | keyError (key : String)
  | valueError (s : String)
  | libException (msg : String)
deriving DecidableEq

/-- `str(ex)` for each modelled exception, as interpolated by the top-level
`LOG.error(f'Unexpected Error: {str(ex)}')`. -/
def describe : PyErr → String
  | .connectionFailed ty => "Connection failed: " ++ ty
  | .clientError _ m => "Client Error: " ++ m
  | .serverError _ m => "Server Error: " ++ m
  | .wrapped m => m
  | .unsupportedMethod m => "Unsupport method: " ++ m
  | .indexError => "list index out of range"
  | .unboundLocal n => "local variable '" ++ n ++ "' referenced before assignment"
  | .keyError k => "'" ++ k ++ "'"
  | .valueError s => "invalid literal for int() with base 10: '" ++ s ++ "'"
  | .libException m => m

/-- What one HTTP call does, from the program's point of view: the server
answers with a status (and, for an `HTTPError`, the library's `str(ex)` text
`msg`, which embeds the status), or the library raises a connection-level
failure, or it raises some other exception. -/
inductive TransportOutcome (α : Type) where
  | response (status : Nat) (msg : String) (body : α)
  | connFail (tyName : String)
  | otherExc (msg : String)
deriving DecidableEq

/-- The `try` body of `request`: `resp.raise_for_status()` raises `HTTPError`
exactly for statuses in `[400, 600)`; the `except` clauses turn it into
`RuntimeError('Client Error: ...')` / `RuntimeError('Server Error: ...')`, a
connection-level failure into `RuntimeError('Connection failed: <type>')`,
and anything else into a bare `RuntimeError(ex)`. -/
def mapOutcome : TransportOutcome α → Except PyErr α
  | .response status msg body =>
    if 400 ≤ status ∧ status < 500 then .error (.clientError status msg)
    else if 500 ≤ status ∧ status < 600 then .error (.serverError status msg)
    else .ok body
  | .connFail ty => .error (.connectionFailed ty)
  | .otherExc m => .error (.wrapped m)

/-- The `request` wrapper (source lines 80-112): an unsupported method is
rejected up front, otherwise the transport outcome is mapped as above.  All
wrapper calls carry `'verify': False`. -/
def request (method : String) (outcome : TransportOutcome α) : Except PyErr α :=
  if method = "GET" ∨ method = "POST" ∨ method = "PATCH" ∨ method = "DELETE" then
    mapOutcome outcome
  else .error (.unsupportedMethod method)

/-! ## The pointer parser (`get_lfs_meta`, lines 115-133) -/

/-- `_.strip().split(':')[1]` for an `oid` line, `none` meaning
`IndexError`. -/
def oidTok (l : String) : Option String :=
  (pySplitSep ':' (pyStrip l)).get? 1

/-- `_.strip().split()[1]` for a `size` line, `none` meaning `IndexError`. -/
def sizeTok (l : String) : Option String :=
  (pySplitWs (pyStrip l)).get? 1

/-- The `for` loop of `get_lfs_meta`: iterates over the body's lines carrying
the (possibly still unassigned) local variables `oid` and `size`; an `oid`
line rebinds `oid`, an `elif size` line rebinds `size`, a failing index raises
`IndexError`. -/
def scanPointer : List String → Option String × Option String →
    Except PyErr (Option String × Option String)
  | [], st => .ok st
  | l :: ls, (o, s) =>
    if pyStartswith l "oid" then
      match oidTok l with
      | some t => scanPointer ls (some t, s)
      | none => .error .indexError
    else if pyStartswith l "size" then
      match sizeTok l with
      | some t => scanPointer ls (o, some t)
      | none => .error .indexError
    else scanPointer ls (o, s)

/-- Parsing part of `get_lfs_meta`: runs the loop over the body's lines and
then evaluates `return oid, size`, which raises `UnboundLocalError` (first
for `oid`, then for `size`) when the corresponding line never occurred. -/
def get_lfs_meta_parse (lines : List String) : Except PyErr (String × String) :=
  match scanPointer lines (none, none) with
  | .error e => .error e
  | .ok (some o, some s) => .ok (o, s)
  | .ok (none, _) => .error (.unboundLocal "oid")
  | .ok (some _, none) => .error (.unboundLocal "size")

/-- `get_lfs_meta` after URL construction: issue the wrapped GET, then parse
the body (modelled as its list of lines). -/
def get_lfs_meta (outcome : TransportOutcome (List String)) :
    Except PyErr (String × String) :=
  match request "GET" outcome with
  | .error e => .error e
  | .ok lines => get_lfs_meta_parse lines

/-! ## URLs (lines 122 and 156) -/

/-- The raw-file URL exactly as the f-string on line 122 builds it: only the
project path goes through `quote_plus`; the file path and the ref are
interpolated verbatim. -/
def build_raw_url (host project file ref : String) : String :=
  "http://" ++ host ++ "/api/v4/projects/" ++ quote_plus project ++
    "/repository/files/" ++ file ++ "/raw?ref=" ++ ref

/-- The LFS batch endpoint (line 156). -/
def batch_url (host project : String) : String :=
  "http://" ++ host ++ "/" ++ project ++ ".git/info/lfs/objects/batch"

/-! ## The batch negotiator (`get_lfs_downloand_info`, lines 136-170) -/

/-- One element of the batch response's `objects` array, reduced to the data
the program reads from it: `obj['actions']['download']['href']` and
`obj['actions']['download']['header']` (the claims never exercise the absence
of those inner keys, so they are taken as present). -/
structure BatchObject where
  href : String
  header : List (String × String)
deriving DecidableEq

/-- The decoded JSON body of the batch response. -/
structure BatchBody where
  objects : List BatchObject
deriving DecidableEq

/-- `data['objects'][0]` and the two `['actions']['download']` reads:
indexing an empty list raises `IndexError`. -/
def extract_download (data : BatchBody) :
    Except PyErr (String × List (String × String)) :=
  match data.objects.get? 0 with
  | none => .error .indexError
  | some obj => .ok (obj.href, obj.header)

/-- `get_lfs_downloand_info`: builds `req_data` — evaluating `int(size)`,
which raises `ValueError` on a non-numeric size before any request is made —
then POSTs through the wrapper and extracts the first object's download
action. -/
def get_lfs_downloand_info (size : String)
    (outcome : TransportOutcome BatchBody) :
    Except PyErr (String × List (String × String)) :=
  match pyInt size with
  | none => .error (.valueError size)
  | some _ =>
    match request "POST" outcome with
    | .error e => .error e
    | .ok data => extract_download data

/-! ## The streaming downloader (`dl_target_file`, lines 173-190) -/

/-- The streamed response: its headers and its body as a byte list. -/
structure DlResp where
  headers : List (String × String)
  body : List Nat
deriving DecidableEq

/-- Python dictionary lookup on the response headers list. -/
def lookupHeader : List (String × String) → String → Option String
  | [], _ => none
  | (k, v) :: rest, key => if k = key then some v else lookupHeader rest key

/-- `r.iter_content(chunk_size=1024)`: the body cut into chunks of at most
1024 bytes (fuel-driven so that it evaluates by `decide`). -/
def chunkBytesAux : Nat → List Nat → List (List Nat)
  | 0, _ => []
  | _ + 1, [] => []
  | fuel + 1, b :: bs => (b :: bs).take 1024 :: chunkBytesAux fuel ((b :: bs).drop 1024)

/-- The chunk sequence of a byte list. -/
def chunkBytes (l : List Nat) : List (List Nat) :=
  chunkBytesAux l.length l

/-- `dl_target_file` after the URL is fixed: `requests.get` may itself raise
(propagating unwrapped), `r.raise_for_status()` raises an uncaught
`HTTPError` on a 4xx/5xx status, `r.headers['Content-Length']` raises
`KeyError` when the header is absent and `int(...)` raises `ValueError` when
it is non-numeric; `num_bars` only feeds the progress bar, and the write loop
appends every chunk of the stream, in order, until the stream ends.  The
returned byte list is the written file's content. -/
def dl_target_file (outcome : TransportOutcome DlResp) :
    Except PyErr (List Nat) :=
  match outcome with
  | .connFail ty => .error (.libException ty)
  | .otherExc m => .error (.libException m)
  | .response status msg resp =>
    if 400 ≤ status ∧ status < 600 then .error (.libException msg)
    else
      match lookupHeader resp.headers "Content-Length" with
      | none => .error (.keyError "Content-Length")
      | some cl =>
        match pyInt cl with
        | none => .error (.valueError cl)
        | some n =>
          let chunk_size := 1024
          let _num_bars := n / chunk_size
          .ok (chunkBytes resp.body).flatten

/-! ## Configuration (lines 28-45) -/

/-- The process environment restricted to the four variables the program
reads. -/
structure Env where
  GIT_HOST : Option String
  GIT_TOKEN : Option String
  GIT_USER : Option String
  GIT_PWD : Option String
deriving DecidableEq

/-- Environment lookup by variable name. -/
def getEnvVar (e : Env) : String → Option String
  | "GIT_HOST" => e.GIT_HOST
  | "GIT_TOKEN" => e.GIT_TOKEN
  | "GIT_USER" => e.GIT_USER
  | "GIT_PWD" => e.GIT_PWD
  | _ => none

/-- The loaded configuration, including the derived Basic-Auth value. -/
structure Config where
  host : String
  token : String
  user : String
  pwd : String
  basic_auth : String
deriving DecidableEq

/-- The `KeyError` log line of the module-level `except` (line 40):
`str(ex)` of a `KeyError` is the quoted key. -/
def cfgErrMsg (v : String) : String :=
  "Please setup required env variable: '" ++ v ++ "'"

/-- The module-level configuration load: `os.environ[...]` in source order,
the first missing variable raising `KeyError`; on success the Basic-Auth
header value is derived from `user:pwd`. -/
def loadConfig (e : Env) : Except String Config :=
  match e.GIT_HOST with
  | none => .error (cfgErrMsg "GIT_HOST")
  | some host =>
    match e.GIT_TOKEN with
    | none => .error (cfgErrMsg "GIT_TOKEN")
    | some token =>
      match e.GIT_USER with
      | none => .error (cfgErrMsg "GIT_USER")
      | some user =>
        match e.GIT_PWD with
        | none => .error (cfgErrMsg "GIT_PWD")
        | some pwd =>
          .ok ⟨host, token, user, pwd,
               "Basic " ++ b64encode (user ++ ":" ++ pwd)⟩

/-- The first variable missing from the environment, in the order the source
reads them. -/
def firstMissing (e : Env) : Option String :=
  match e.GIT_HOST with
  | none => some "GIT_HOST"
  | some _ =>
    match e.GIT_TOKEN with
    | none => some "GIT_TOKEN"
    | some _ =>
      match e.GIT_USER with
      | none => some "GIT_USER"
      | some _ =>
        match e.GIT_PWD with
        | none => some "GIT_PWD"
        | some _ => none

/-! ## The pipeline (the `__main__` block, lines 193-205) -/

/-- One HTTP request as the program issues it: URL, method, request headers,
and whether TLS certificate verification is enabled for it.  The two calls
through the `request` wrapper pass `'verify': False`; the final
`requests.get` passes no `verify` argument, so the library default (enabled)
applies. -/
structure IssuedReq where
  url : String
  method : String
  reqHeader : List (String × String)
  verify : Bool
deriving DecidableEq

/-- One run's input: the environment, the three CLI arguments, and the
outcome of each of the three network calls the program can reach. -/
structure RunInput where
  env : Env
  project : String
  ref : String
  file : String
  rawOutcome : TransportOutcome (List String)
  batchOutcome : TransportOutcome BatchBody
  dlOutcome : TransportOutcome DlResp

/-- One run's observable result: the process exit status, the requests that
were actually issued (in order), the exception reaching the top-level
handler (if any), the one line logged by an error path, and the bytes of the
written output file (if the download completed). -/
structure RunResult where
  exitCode : Nat
  trace : List IssuedReq
  failure : Option PyErr
  logged : Option String
  file : Option (List Nat)
deriving DecidableEq

/-- The raw-file GET as `get_lfs_meta` issues it (through the wrapper, so
with verification disabled). -/
def rawReq (cfg : Config) (inp : RunInput) : IssuedReq :=
  ⟨build_raw_url cfg.host inp.project inp.file inp.ref, "GET",
   [("PRIVATE-TOKEN", cfg.token)], false⟩

/-- The batch POST as `get_lfs_downloand_info` issues it (through the
wrapper, so with verification disabled). -/
def batchReq (cfg : Config) (inp : RunInput) : IssuedReq :=
  ⟨batch_url cfg.host inp.project, "POST",
   [("Authorization", cfg.basic_auth), ("Content-Type", "application/json")],
   false⟩

/-- The streaming GET as `dl_target_file` issues it: plain `requests.get`
with no `verify` argument, so verification is enabled (the library
default). -/
def dlReq (href : String) (hdr : List (String × String)) : IssuedReq :=
  ⟨href, "GET", hdr, true⟩

/-- The body of the final `try` after configuration succeeded: the three
dependent calls, each issued only if everything before it succeeded, with
the exact URLs, headers and `verify` flags of the source. -/
def pipeline (cfg : Config) (inp : RunInput) :
    List IssuedReq × Except PyErr (List Nat) :=
  match get_lfs_meta inp.rawOutcome with
  | .error e => ([rawReq cfg inp], .error e)
  | .ok (_, size) =>
    match pyInt size with
    | none => ([rawReq cfg inp], .error (.valueError size))
    | some _ =>
      match get_lfs_downloand_info size inp.batchOutcome with
      | .error e => ([rawReq cfg inp, batchReq cfg inp], .error e)
      | .ok (href, hdr) =>
        ([rawReq cfg inp, batchReq cfg inp, dlReq href hdr],
         dl_target_file inp.dlOutcome)

/-- The final `try`/`except`: a pipeline error is caught, logged as
`Unexpected Error: ...`, and execution falls off the end of the module — so
the exit status is 0 whether the pipeline succeeded or not. -/
def runFrom (cfg : Config) (inp : RunInput) : RunResult :=
  match pipeline cfg inp with
  | (tr, .ok bytes) => ⟨0, tr, none, none, some bytes⟩
  | (tr, .error e) =>
    ⟨0, tr, some e, some ("Unexpected Error: " ++ describe e), none⟩

/-- The whole program: module-level configuration load (exit 1 with the
`KeyError` log line when a variable is missing, before any request), then
the final `try`. -/
def runMain (inp : RunInput) : RunResult :=
  match loadConfig inp.env with
  | .error msg => ⟨1, [], none, some msg, none⟩
  | .ok cfg => runFrom cfg inp

/-! ## Spec-side definitions (for the refinement claims)

These definitions follow the specification's words, to be compared with the
definitions above that embed the source. -/

/-- The text after the first colon of a line, trimmed; `none` when the line
has no colon. -/
def textAfterFirstColon (s : String) : Option String :=
  match s.data.dropWhile (fun c => !(c = ':')) with
  | [] => none
  | _ :: rest => some (pyStrip (String.mk rest))

/-- Modelled from the spec: the object id as C1 words it — "the text after
the first colon of the first line starting with `oid` (trimmed)". -/
def specOid (lines : List String) : Option String :=
  (lines.find? (fun l => pyStartswith l "oid")).bind textAfterFirstColon

/-- Modelled from the spec: the size as C1 words it — "the second
whitespace-separated token of the first line starting with `size`
(trimmed)". -/
def specSize (lines : List String) : Option String :=
  (lines.find? (fun l => pyStartswith l "size")).bind sizeTok

/-- Percent-encoding of a path component as C3 words it: unreserved
characters and `/` pass through, everything else (including space) is
percent-escaped. -/
def pctEncodeList : List Char → String
  | [] => ""
  | c :: cs =>
    (if safeChar c || c = '/' then String.mk [c] else pctByte c.toNat) ++
      pctEncodeList cs

/-- Percent-encoding at the `String` level. -/
def pct_encode (s : String) : String := pctEncodeList s.data

/-- Modelled from the spec: the raw-file URL as C3 claims it is built, with
the project quote-plus-encoded and the file path percent-encoded. -/
def build_raw_url_spec (host project file ref : String) : String :=
  "http://" ++ host ++ "/api/v4/projects/" ++ quote_plus project ++
    "/repository/files/" ++ pct_encode file ++ "/raw?ref=" ++ ref

/-- All characters of a file path that percent-encoding leaves unchanged. -/
def fileUrlSafe (s : String) : Bool :=
  s.data.all (fun c => safeChar c || c = '/')

/-! ## Characterizations used by the amended C1 -/

/-- Every line starting with `oid` splits at `:` into at least two
fragments (so the loop never raises `IndexError` on it). -/
def oidLinesOk (lines : List String) : Bool :=
  lines.all (fun l => !pyStartswith l "oid" || (oidTok l).isSome)

/-- Every line starting with `size` has at least two whitespace tokens. -/
def sizeLinesOk (lines : List String) : Bool :=
  lines.all (fun l => !pyStartswith l "size" || (sizeTok l).isSome)

/-- The value of the loop variable `oid` after the whole loop, starting from
`o`: the token of the last `oid` line, if any. -/
def lastOidFrom (ls : List String) (o : Option String) : Option String :=
  match ls.reverse.find? (fun l => pyStartswith l "oid") with
  | some l => oidTok l
  | none => o

/-- The value of the loop variable `size` after the whole loop, starting
from `s`: the token of the last `size` line, if any. -/
def lastSizeFrom (ls : List String) (s : Option String) : Option String :=
  match ls.reverse.find? (fun l => pyStartswith l "size") with
  | some l => sizeTok l
  | none => s

/-! ## Concrete sample runs (used by witnesses and counterexamples) -/

/-- A fully populated environment. -/
def sampleEnv : Env :=
  ⟨some "gitlab.example.com", some "tok", some "u", some "p"⟩

/-- The configuration `loadConfig` derives from `sampleEnv`
(`b64encode "u:p" = "dTpw"`). -/
def sampleCfg : Config :=
  ⟨"gitlab.example.com", "tok", "u", "p", "Basic dTpw"⟩

/-- A batch response holding one object with a signed download action. -/
def sampleBatch : BatchBody :=
  ⟨[⟨"https://storage.example.com/x", [("X-Amz-Sig", "s")]⟩]⟩

/-- A happy-path run: valid pointer, one batch object, a three-byte
download. -/
def goodRun : RunInput :=
  ⟨sampleEnv, "group/proj", "main", "dir/data.bin",
   .response 200 "" ["version x", "oid sha256:abc", "size 3"],
   .response 200 "" sampleBatch,
   .response 200 "" ⟨[("Content-Length", "3")], [1, 2, 3]⟩⟩

/-- A run whose pointer fetch raises an unexpected library exception. -/
def boomRun : RunInput := { goodRun with rawOutcome := .otherExc "boom" }

/-- A run whose raw-file endpoint answers 404. -/
def notFoundRun : RunInput :=
  { goodRun with rawOutcome := .response 404 "404 Client Error: Not Found" [] }

/-- A run whose batch endpoint answers with an empty objects array. -/
def emptyBatchRun : RunInput :=
  { goodRun with batchOutcome := .response 200 "" ⟨[]⟩ }

/-- A run in an environment with `GIT_TOKEN` unset. -/
def noTokenRun : RunInput :=
  { goodRun with env := ⟨some "gitlab.example.com", none, some "u", some "p"⟩ }

/-! ## Helper lemmas -/

/-- A nonempty prefix pins down the head of the list. -/
theorem isPrefixOf_head (a : Char) (as l : List Char)
    (h : (a :: as).isPrefixOf l = true) : ∃ t, l = a :: t := by
  cases l with
  | nil => simp [List.isPrefixOf] at h
  | cons c cs =>
    simp [List.isPrefixOf] at h
    exact ⟨cs, by rw [h.1]⟩

/-- A line starting with `size` does not start with `oid`: the `elif` branch
of the loop is reachable exactly on the `size` lines. -/
theorem size_not_oid (l : String) (h : pyStartswith l "size" = true) :
    pyStartswith l "oid" = false := by
  unfold pyStartswith at *
  by_contra hcon
  rw [Bool.not_eq_false] at hcon
  obtain ⟨t, ht⟩ := isPrefixOf_head 's' ['i', 'z', 'e'] l.data h
  obtain ⟨u, hu⟩ := isPrefixOf_head 'o' ['i', 'd'] l.data hcon
  rw [ht] at hu
  simp at hu

/-- And conversely. -/
theorem oid_not_size (l : String) (h : pyStartswith l "oid" = true) :
    pyStartswith l "size" = false := by
  by_contra hcon
  rw [Bool.not_eq_false] at hcon
  rw [size_not_oid l hcon] at h
  cases h

/-- Unrolling `lastOidFrom` over the head of the line list: the head wins
over the initial value, later lines win over the head. -/
theorem lastOidFrom_cons (l : String) (ls : List String) (o : Option String) :
    lastOidFrom (l :: ls) o =
      lastOidFrom ls (if pyStartswith l "oid" then oidTok l else o) := by
  unfold lastOidFrom
  rw [List.reverse_cons, List.find?_append]
  cases hf : ls.reverse.find? (fun x => pyStartswith x "oid") with
  | some x => simp [Option.or]
  | none =>
    by_cases hO : pyStartswith l "oid" = true
    · simp [Option.or, List.find?, hO]
    · rw [Bool.not_eq_true] at hO
      simp [Option.or, List.find?, hO]

/-- Unrolling `lastSizeFrom` over the head of the line list. -/
theorem lastSizeFrom_cons (l : String) (ls : List String) (s : Option String) :
    lastSizeFrom (l :: ls) s =
      lastSizeFrom ls (if pyStartswith l "size" then sizeTok l else s) := by
  unfold lastSizeFrom
  rw [List.reverse_cons, List.find?_append]
  cases hf : ls.reverse.find? (fun x => pyStartswith x "size") with
  | some x => simp [Option.or]
  | none =>
    by_cases hS : pyStartswith l "size" = true
    · simp [Option.or, List.find?, hS]
    · rw [Bool.not_eq_true] at hS
      simp [Option.or, List.find?, hS]

/-- The loop of `get_lfs_meta`, run from any bindings `(o, s)` of its local
variables, succeeds and leaves the token of the last `oid` line and the
token of the last `size` line, provided every marker line tokenizes. -/
theorem scanPointer_ok (ls : List String) (o s : Option String)
    (h1 : ∀ l ∈ ls, pyStartswith l "oid" = true → (oidTok l).isSome = true)
    (h2 : ∀ l ∈ ls, pyStartswith l "size" = true → (sizeTok l).isSome = true) :
    scanPointer ls (o, s) = .ok (lastOidFrom ls o, lastSizeFrom ls s) := by
  induction ls generalizing o s with
  | nil => rfl
  | cons l ls ih =>
    have h1' : ∀ x ∈ ls, pyStartswith x "oid" = true → (oidTok x).isSome = true :=
      fun x hx => h1 x (List.mem_cons_of_mem l hx)
    have h2' : ∀ x ∈ ls, pyStartswith x "size" = true → (sizeTok x).isSome = true :=
      fun x hx => h2 x (List.mem_cons_of_mem l hx)
    rw [lastOidFrom_cons, lastSizeFrom_cons]
    simp only [scanPointer]
    by_cases hO : pyStartswith l "oid" = true
    · obtain ⟨t, ht⟩ := Option.isSome_iff_exists.mp (h1 l (List.mem_cons_self l ls) hO)
      have hS : pyStartswith l "size" = false := oid_not_size l hO
      rw [hO, hS]
      simp only [eq_self_iff_true, if_true, Bool.false_eq_true, if_false, ht]
      exact ih (some t) s h1' h2'
    · rw [Bool.not_eq_true] at hO
      rw [hO]
      simp only [Bool.false_eq_true, if_false]
      by_cases hS : pyStartswith l "size" = true
      · obtain ⟨t, ht⟩ := Option.isSome_iff_exists.mp (h2 l (List.mem_cons_self l ls) hS)
        rw [hS]
        simp only [eq_self_iff_true, if_true, ht]
        exact ih o (some t) h1' h2'
      · rw [Bool.not_eq_true] at hS
        rw [hS]
        simp only [Bool.false_eq_true, if_false]
        exact ih o s h1' h2'

/-- With enough fuel, concatenating the chunks gives back the stream. -/
theorem chunkBytesAux_flatten (fuel : Nat) (l : List Nat) (h : l.length ≤ fuel) :
    (chunkBytesAux fuel l).flatten = l := by
  induction fuel generalizing l with
  | zero =>
    have : l = [] := List.eq_nil_of_length_eq_zero (Nat.le_zero.mp h)
    rw [this]
    rfl
  | succ fuel ih =>
    cases l with
    | nil => rfl
    | cons b bs =>
      simp only [chunkBytesAux, List.flatten_cons]
      rw [ih ((b :: bs).drop 1024) (by simp only [List.length_drop]; simp at h ⊢; omega)]
      exact List.take_append_drop 1024 (b :: bs)

/-- The write loop reproduces the stream exactly: chunking never loses or
reorders bytes. -/
theorem chunkBytes_flatten (l : List Nat) : (chunkBytes l).flatten = l :=
  chunkBytesAux_flatten l.length l (Nat.le_refl _)

/-- Percent-encoding is the identity on strings of unreserved characters and
slashes. -/
theorem pctEncodeList_safe (cs : List Char)
    (h : ∀ c ∈ cs, (safeChar c || c = '/') = true) :
    pctEncodeList cs = String.mk cs := by
  induction cs with
  | nil => rfl
  | cons c cs ih =>
    simp only [pctEncodeList]
    rw [h c (List.mem_cons_self c cs)]
    simp only [if_true]
    rw [ih (fun x hx => h x (List.mem_cons_of_mem c hx))]
    rfl

/-- A successful configuration load hands control to the final `try`. -/
theorem runMain_ok (inp : RunInput) (cfg : Config)
    (hc : loadConfig inp.env = .ok cfg) : runMain inp = runFrom cfg inp := by
  unfold runMain
  rw [hc]

/-- A failed configuration load exits 1 before any request. -/
theorem runMain_error (inp : RunInput) (msg : String)
    (hc : loadConfig inp.env = .error msg) :
    runMain inp = ⟨1, [], none, some msg, none⟩ := by
  unfold runMain
  rw [hc]

/-- A pipeline failure is caught, recorded and logged, with exit status 0. -/
theorem runFrom_error (cfg : Config) (inp : RunInput) (tr : List IssuedReq)
    (e : PyErr) (hp : pipeline cfg inp = (tr, .error e)) :
    runFrom cfg inp =
      ⟨0, tr, some e, some ("Unexpected Error: " ++ describe e), none⟩ := by
  unfold runFrom
  rw [hp]

/-- A pipeline success writes the file, with exit status 0. -/
theorem runFrom_ok (cfg : Config) (inp : RunInput) (tr : List IssuedReq)
    (bytes : List Nat) (hp : pipeline cfg inp = (tr, .ok bytes)) :
    runFrom cfg inp = ⟨0, tr, none, none, some bytes⟩ := by
  unfold runFrom
  rw [hp]

/-- Whatever the pipeline outcome, the final result reports exactly the
issued requests. -/
theorem runFrom_trace (cfg : Config) (inp : RunInput) :
    (runFrom cfg inp).trace = (pipeline cfg inp).1 := by
  unfold runFrom
  rcases hp : pipeline cfg inp with ⟨tr, res⟩
  cases res with
  | ok bytes => rfl
  | error e => rfl

/-! ## The claims -/

/-- C1 (amended): for every pointer body whose `oid` lines all contain a
colon and whose `size` lines all have a second token, and which contains at
least one of each, `get_lfs_meta_parse` returns as object id the second
colon-separated field (text between the first and the second colon) of the
LAST line starting with `oid` — the whole line stripped before splitting —
and as size the second whitespace-separated token of the LAST line starting
with `size`. -/
theorem c1_parse_uses_last_line_second_field (lines : List String)
    (lo lz o z : String)
    (h1 : oidLinesOk lines = true) (h2 : sizeLinesOk lines = true)
    (ho : lines.reverse.find? (fun l => pyStartswith l "oid") = some lo)
    (hz : lines.reverse.find? (fun l => pyStartswith l "size") = some lz)
    (hot : oidTok lo = some o) (hzt : sizeTok lz = some z) :
    get_lfs_meta_parse lines = .ok (o, z) := by
  have h1' : ∀ l ∈ lines, pyStartswith l "oid" = true → (oidTok l).isSome = true := by
    intro l hl hp
    have := (List.all_eq_true.mp h1) l hl
    rw [hp] at this
    simpa using this
  have h2' : ∀ l ∈ lines, pyStartswith l "size" = true → (sizeTok l).isSome = true := by
    intro l hl hp
    have := (List.all_eq_true.mp h2) l hl
    rw [hp] at this
    simpa using this
  unfold get_lfs_meta_parse
  rw [scanPointer_ok lines none none h1' h2']
  unfold lastOidFrom lastSizeFrom
  rw [ho, hz]
  simp [hot, hzt]

/-- Witness for C1: a realistic pointer body parses to its oid hash and
size. -/
theorem c1_witness :
    oidLinesOk ["version x", "oid sha256:abc", "size 42"] = true ∧
    sizeLinesOk ["version x", "oid sha256:abc", "size 42"] = true ∧
    get_lfs_meta_parse ["version x", "oid sha256:abc", "size 42"] =
      .ok ("abc", "42") :=
  ⟨by decide, by decide,
   c1_parse_uses_last_line_second_field _ "oid sha256:abc" "size 42" "abc" "42"
     (by decide) (by decide) (by decide) (by decide) (by decide) (by decide)⟩

/-- Counterexample for C1 as stated: on the spec's own example body the
parser returns the text between the first and second colon, not the text
after the first colon; and with repeated marker lines it uses the last
occurrence, not the first. -/
theorem c1_counterexample :
    (get_lfs_meta_parse ["oid:sha256:deadbeef", "size 42"] = .ok ("sha256", "42") ∧
      specOid ["oid:sha256:deadbeef", "size 42"] = some "sha256:deadbeef" ∧
      ("sha256" : String) ≠ "sha256:deadbeef") ∧
    (get_lfs_meta_parse ["oid:a", "oid:b", "size 1 ", "size 2 "] = .ok ("b", "2") ∧
      specOid ["oid:a", "oid:b", "size 1 ", "size 2 "] = some "a" ∧
      specSize ["oid:a", "oid:b", "size 1 ", "size 2 "] = some "1") := by
  decide

/-- C2: on a pointer body with no `oid` line the code does NOT raise a
descriptive malformed-pointer error — it crashes with `UnboundLocalError`
on `return oid, size`, logged only as the generic
`Unexpected Error: local variable 'oid' referenced before assignment`. -/
theorem c2_missing_marker_unbound_crash :
    get_lfs_meta_parse ["size 42"] = .error (.unboundLocal "oid") ∧
    get_lfs_meta_parse ["oid:sha256:deadbeef"] = .error (.unboundLocal "size") ∧
    describe (.unboundLocal "oid") =
      "local variable 'oid' referenced before assignment" := by
  decide

/-- C3 (amended): the raw-file URL quote-plus-encodes only the project path;
the file path (and ref) are interpolated verbatim, so the claimed
fully-encoded URL is obtained exactly when the file path already consists of
unreserved characters and slashes. -/
theorem c3_only_project_encoded (host project file ref : String)
    (hf : fileUrlSafe file = true) :
    build_raw_url host project file ref = build_raw_url_spec host project file ref := by
  unfold build_raw_url build_raw_url_spec pct_encode
  rw [pctEncodeList_safe file.data (List.all_eq_true.mp hf)]

/-- Witness for C3: for a file path of unreserved characters and slashes the
two URL forms agree. -/
theorem c3_witness :
    fileUrlSafe "dir/file.bin" = true ∧
    build_raw_url "gitlab.example.com" "group/proj" "dir/file.bin" "main" =
      build_raw_url_spec "gitlab.example.com" "group/proj" "dir/file.bin" "main" :=
  ⟨by decide, c3_only_project_encoded _ _ _ _ (by decide)⟩

/-- Counterexample for C3 as stated: a file path containing a space is not
percent-encoded by the code, so the built URL differs from the claimed one
(which carries `my%20file.bin`). -/
theorem c3_counterexample :
    build_raw_url "h" "g/p" "my file.bin" "main" ≠
      build_raw_url_spec "h" "g/p" "my file.bin" "main" ∧
    build_raw_url "h" "g/p" "my file.bin" "main" =
      "http://h/api/v4/projects/g%2Fp/repository/files/my file.bin/raw?ref=main" := by
  decide

/-- C4 (amended): after a successful configuration load, any component
failure is caught by the top-level handler and logged as
`Unexpected Error: ...`, and the process then falls off the end of the
module — exiting with status 0, not a non-zero status. -/
theorem c4_failure_logged_exit_zero (inp : RunInput) (cfg : Config) (e : PyErr)
    (hc : loadConfig inp.env = .ok cfg)
    (he : (pipeline cfg inp).2 = .error e) :
    (runMain inp).exitCode = 0 ∧ (runMain inp).failure = some e ∧
    (runMain inp).logged = some ("Unexpected Error: " ++ describe e) := by
  rcases hp : pipeline cfg inp with ⟨tr, res⟩
  rw [hp] at he
  have he' : res = .error e := he
  subst he'
  rw [runMain_ok inp cfg hc, runFrom_error cfg inp tr e hp]
  exact ⟨rfl, rfl, rfl⟩

/-- Witness for C4: a run whose pointer fetch raises is logged and exits
with status 0. -/
theorem c4_witness :
    loadConfig sampleEnv = .ok sampleCfg ∧
    (pipeline sampleCfg boomRun).2 = .error (.wrapped "boom") ∧
    ((runMain boomRun).exitCode = 0 ∧
     (runMain boomRun).failure = some (.wrapped "boom") ∧
     (runMain boomRun).logged =
       some ("Unexpected Error: " ++ describe (.wrapped "boom"))) :=
  ⟨by decide, by decide,
   c4_failure_logged_exit_zero boomRun sampleCfg (.wrapped "boom")
     (by decide) (by decide)⟩

/-- Counterexample for C4 as stated: a run in which a component after
configuration fails terminates with exit status 0, not a non-zero one. -/
theorem c4_counterexample :
    (runMain boomRun).failure = some (.wrapped "boom") ∧
    (runMain boomRun).exitCode = 0 := by
  decide

/-- C5: a batch response with an empty objects array makes the code raise
`IndexError` at `data['objects'][0]`, logged only as the generic
`list index out of range` — not a descriptive error. -/
theorem c5_empty_objects_index_error :
    extract_download ⟨[]⟩ = .error .indexError ∧
    (runMain emptyBatchRun).failure = some .indexError ∧
    (runMain emptyBatchRun).logged =
      some "Unexpected Error: list index out of range" := by
  decide

/-- C6: when the raw-file endpoint answers 404 the wrapper raises the client
error carrying status 404, the top level logs it, and the only request ever
issued is the raw-file GET — no batch POST, no streaming download. -/
theorem c6_404_halts_pipeline (inp : RunInput) (cfg : Config) (m : String)
    (b : List String)
    (hc : loadConfig inp.env = .ok cfg)
    (hr : inp.rawOutcome = .response 404 m b) :
    (runMain inp).failure = some (.clientError 404 m) ∧
    (runMain inp).trace =
      [⟨build_raw_url cfg.host inp.project inp.file inp.ref, "GET",
        [("PRIVATE-TOKEN", cfg.token)], false⟩] ∧
    (runMain inp).logged = some ("Unexpected Error: Client Error: " ++ m) := by
  have hm : get_lfs_meta inp.rawOutcome = .error (.clientError 404 m) := by
    rw [hr]
    rfl
  have hp : pipeline cfg inp =
      ([rawReq cfg inp], .error (.clientError 404 m)) := by
    unfold pipeline
    rw [hm]
  rw [runMain_ok inp cfg hc, runFrom_error cfg inp _ _ hp]
  exact ⟨rfl, rfl, rfl⟩

/-- Witness for C6: a concrete 404 run issues exactly one request and
reports the 404 client error. -/
theorem c6_witness :
    loadConfig sampleEnv = .ok sampleCfg ∧
    notFoundRun.rawOutcome = .response 404 "404 Client Error: Not Found" [] ∧
    ((runMain notFoundRun).failure =
        some (.clientError 404 "404 Client Error: Not Found") ∧
     (runMain notFoundRun).trace =
        [⟨build_raw_url sampleCfg.host notFoundRun.project notFoundRun.file
            notFoundRun.ref, "GET", [("PRIVATE-TOKEN", sampleCfg.token)], false⟩] ∧
     (runMain notFoundRun).logged =
        some ("Unexpected Error: Client Error: " ++ "404 Client Error: Not Found")) :=
  ⟨by decide, by decide,
   c6_404_halts_pipeline notFoundRun sampleCfg "404 Client Error: Not Found" []
     (by decide) (by decide)⟩

/-- C7 (amended): the Content-Length value feeds only the progress chunk
count — any parsable value yields the same written file, the in-order
concatenation of the at-most-1024-byte chunks, terminated by end-of-stream —
but the header must be present: without it the download raises `KeyError`
before writing anything. -/
theorem c7_content_length_progress_only (status : Nat) (msg cl : String)
    (hdrs : List (String × String)) (body : List Nat) (n : Nat)
    (hst : ¬(400 ≤ status ∧ status < 600))
    (hcl : lookupHeader hdrs "Content-Length" = some cl)
    (hn : pyInt cl = some n) :
    dl_target_file (.response status msg ⟨hdrs, body⟩) =
      .ok ((chunkBytes body).flatten) ∧
    (chunkBytes body).flatten = body := by
  refine ⟨?_, chunkBytes_flatten body⟩
  simp only [dl_target_file]
  rw [if_neg hst]
  simp [hcl, hn]

/-- Witness for C7: a Content-Length wildly different from the body length
does not change the bytes written. -/
theorem c7_witness :
    lookupHeader [("Content-Length", "999999")] "Content-Length" = some "999999" ∧
    pyInt "999999" = some 999999 ∧
    (dl_target_file (.response 200 "" ⟨[("Content-Length", "999999")], [5, 6]⟩) =
        .ok ((chunkBytes [5, 6]).flatten) ∧
      (chunkBytes [5, 6]).flatten = [5, 6]) :=
  ⟨by decide, by decide,
   c7_content_length_progress_only 200 "" "999999" _ [5, 6] 999999
     (by decide) (by decide) (by decide)⟩

/-- Counterexample for C7 as stated: with the Content-Length header absent
the download does not proceed to the write loop — it raises `KeyError`. -/
theorem c7_counterexample :
    dl_target_file (.response 200 "" ⟨[("X-Amz-Sig", "s")], [7, 8, 9]⟩) =
      .error (.keyError "Content-Length") := by
  decide

/-- The issued requests of any pipeline run carry verify flags forming a
prefix of `[false, false, true]`: wrapper calls disabled, download
enabled. -/
theorem pipeline_trace_verify (cfg : Config) (inp : RunInput) :
    (pipeline cfg inp).1.map IssuedReq.verify <+: [false, false, true] := by
  unfold pipeline
  split
  · exact ⟨[false, true], by simp [rawReq]⟩
  · split
    · exact ⟨[false, true], by simp [rawReq]⟩
    · split
      · exact ⟨[true], by simp [rawReq, batchReq]⟩
      · exact ⟨[], by simp [rawReq, batchReq, dlReq]⟩

/-- C8 (amended): in every run, the two metadata calls through the wrapper
disable TLS certificate verification, while the final streaming GET is
issued with the library default — verification enabled; the requests'
verify flags always form a prefix of `[false, false, true]`. -/
theorem c8_wrapper_only_verify_disabled (inp : RunInput) :
    (runMain inp).trace.map IssuedReq.verify <+: [false, false, true] := by
  cases hc : loadConfig inp.env with
  | error msg =>
    rw [runMain_error inp msg hc]
    exact ⟨[false, false, true], rfl⟩
  | ok cfg =>
    rw [runMain_ok inp cfg hc, runFrom_trace]
    exact pipeline_trace_verify cfg inp

/-- Counterexample for C8 as stated: in a successful run all three requests
are issued and the third — the streaming download — has certificate
verification enabled. -/
theorem c8_counterexample :
    (runMain goodRun).trace.map IssuedReq.verify = [false, false, true] ∧
    (runMain goodRun).file = some [1, 2, 3] := by
  decide

/-- C9: the wrapper maps a connection-level failure to the
`Connection failed` error carrying the failure's type name, a 4xx response
to `Client Error` with status and message, a 5xx response to `Server Error`
with status and message, and any other exception to a generic wrap of its
message. -/
theorem c9_request_error_mapping (m : String)
    (hm : m = "GET" ∨ m = "POST" ∨ m = "PATCH" ∨ m = "DELETE") :
    (∀ ty, request m (TransportOutcome.connFail ty : TransportOutcome (List String)) =
        .error (.connectionFailed ty) ∧
      describe (.connectionFailed ty) = "Connection failed: " ++ ty) ∧
    (∀ (s : Nat) (msg : String) (b : List String), 400 ≤ s → s < 500 →
      request m (.response s msg b) = .error (.clientError s msg) ∧
      describe (.clientError s msg) = "Client Error: " ++ msg) ∧
    (∀ (s : Nat) (msg : String) (b : List String), 500 ≤ s → s < 600 →
      request m (.response s msg b) = .error (.serverError s msg) ∧
      describe (.serverError s msg) = "Server Error: " ++ msg) ∧
    (∀ msg, request m (.otherExc msg : TransportOutcome (List String)) =
        .error (.wrapped msg) ∧ describe (.wrapped msg) = msg) := by
  have hreq : ∀ o : TransportOutcome (List String), request m o = mapOutcome o := by
    intro o
    unfold request
    rw [if_pos hm]
  refine ⟨fun ty => ⟨?_, rfl⟩, fun s msg b h1 h2 => ⟨?_, rfl⟩,
    fun s msg b h1 h2 => ⟨?_, rfl⟩, fun msg => ⟨?_, rfl⟩⟩
  · rw [hreq]
    rfl
  · rw [hreq]
    simp only [mapOutcome]
    rw [if_pos ⟨h1, h2⟩]
  · rw [hreq]
    simp only [mapOutcome]
    rw [if_neg (by omega : ¬(400 ≤ s ∧ s < 500)), if_pos ⟨h1, h2⟩]
  · rw [hreq]
    rfl

/-- Witness for C9: each of the four mappings at a concrete input. -/
theorem c9_witness :
    ("GET" = "GET" ∨ "GET" = "POST" ∨ "GET" = "PATCH" ∨ "GET" = "DELETE") ∧
    (request "GET"
        (TransportOutcome.connFail "NewConnectionError" : TransportOutcome (List String)) =
        .error (.connectionFailed "NewConnectionError") ∧
      describe (.connectionFailed "NewConnectionError") =
        "Connection failed: " ++ "NewConnectionError") ∧
    (request "GET" (.response 404 "m" (["b"] : List String)) =
        .error (.clientError 404 "m") ∧
      describe (.clientError 404 "m") = "Client Error: " ++ "m") ∧
    (request "GET" (.response 503 "m" (["b"] : List String)) =
        .error (.serverError 503 "m") ∧
      describe (.serverError 503 "m") = "Server Error: " ++ "m") ∧
    (request "GET" (.otherExc "weird" : TransportOutcome (List String)) =
        .error (.wrapped "weird") ∧
      describe (.wrapped "weird") = "weird") :=
  have h := c9_request_error_mapping "GET" (Or.inl rfl)
  ⟨Or.inl rfl, h.1 "NewConnectionError",
   h.2.1 404 "m" ["b"] (by decide) (by decide),
   h.2.2.1 503 "m" ["b"] (by decide) (by decide),
   h.2.2.2 "weird"⟩

/-- C10: with any of the four required variables missing, the module-level
load logs the configuration error naming the (first) missing variable and
the process exits with status 1 before any request is issued. -/
theorem c10_missing_env_config_error (inp : RunInput) (v : String)
    (h : firstMissing inp.env = some v) :
    (runMain inp).exitCode = 1 ∧ (runMain inp).trace = [] ∧
    (runMain inp).logged = some (cfgErrMsg v) ∧ getEnvVar inp.env v = none := by
  obtain ⟨env, project, ref, file, ro, bo, dlo⟩ := inp
  obtain ⟨eh, et, eu, ep⟩ := env
  cases eh with
  | none =>
    simp only [firstMissing, Option.some.injEq] at h
    subst h
    exact ⟨rfl, rfl, rfl, rfl⟩
  | some a =>
    cases et with
    | none =>
      simp only [firstMissing, Option.some.injEq] at h
      subst h
      exact ⟨rfl, rfl, rfl, rfl⟩
    | some b =>
      cases eu with
      | none =>
        simp only [firstMissing, Option.some.injEq] at h
        subst h
        exact ⟨rfl, rfl, rfl, rfl⟩
      | some c =>
        cases ep with
        | none =>
          simp only [firstMissing, Option.some.injEq] at h
          subst h
          exact ⟨rfl, rfl, rfl, rfl⟩
        | some d =>
          simp only [firstMissing] at h
          cases h

/-- Witness for C10: a run with `GIT_TOKEN` unset exits 1, issues no
request, and names `GIT_TOKEN`. -/
theorem c10_witness :
    firstMissing noTokenRun.env = some "GIT_TOKEN" ∧
    ((runMain noTokenRun).exitCode = 1 ∧ (runMain noTokenRun).trace = [] ∧
     (runMain noTokenRun).logged = some (cfgErrMsg "GIT_TOKEN") ∧
     getEnvVar noTokenRun.env "GIT_TOKEN" = none) :=
  ⟨by decide, c10_missing_env_config_error noTokenRun "GIT_TOKEN" (by decide)⟩

end GitlabLfsGet
